import Mathlib

/-!
Shallow embedding of `src/app.py` (Home Inspection AI Assistant): the image
normalization pipeline `process_image`, the request builders inside
`analyze_image` and `analyze_defect`, the client initialization
`init_openai_client` and the event flow of `main`.

Python exceptions are embedded with `Except String`: a `.error e` value is an
exception with message `e` escaping the function's boundary; `try/except`
blocks are embedded as a `match` on the protected body.  External library
behaviour (PIL decoding, `Image.thumbnail`, JPEG saving, base64) is modelled
from the libraries' documented semantics, with exact rational arithmetic in
place of Python floats.
-/

/-- PIL image modes relevant to the app (subset of PIL's mode strings). -/
inductive PILMode where
  | one | L | P | RGB | RGBA | LA | RGBX | CMYK | YCbCr
  deriving DecidableEq, Repr

/-- The PIL mode string of a mode. -/
def PILMode.name : PILMode → String
  | .one => "1"
  | .L => "L"
  | .P => "P"
  | .RGB => "RGB"
  | .RGBA => "RGBA"
  | .LA => "LA"
  | .RGBX => "RGBX"
  | .CMYK => "CMYK"
  | .YCbCr => "YCbCr"

/-- A decoded in-memory PIL image: its pixel dimensions and mode. -/
structure PILImage where
  width : Nat
  height : Nat
  mode : PILMode
  deriving DecidableEq, Repr

/-- An uploaded file as seen by `Image.open`: either it decodes to a raster
image, or decoding fails with the library's error message. -/
inductive ImageFile where
  | malformed (msg : String)
  | valid (img : PILImage)
  deriving DecidableEq, Repr

/-- Model of PIL `Image.open`: decodes the file or raises (models e.g.
`UnidentifiedImageError("cannot identify image file ...")`). -/
def image_open : ImageFile → Except String PILImage
  | .malformed msg => .error msg
  | .valid img => .ok img

/-- Model of the local helper `round_aspect` inside PIL `Image.thumbnail`:
`max(min(math.floor(number), math.ceil(number), key=key), 1)`.  Python's
two-argument `min` with a key returns the first argument on ties, so the
floor wins ties. -/
def round_aspect (number : ℚ) (key : ℚ → ℚ) : Nat :=
  max
    (if key (Int.floor number).toNat ≤ key (Int.ceil number).toNat
     then (Int.floor number).toNat
     else (Int.ceil number).toNat)
    1

/-- Model of PIL `Image.thumbnail(size)` restricted to the dimensions it
produces, with exact rationals for Python's float division.  Returns the
new `(width, height)` of an image of dimensions `(w, h)`; the Python locals
`x`, `y` (the floor of the requested size) and `aspect = width / height`
are inlined:

```python
x, y = map(math.floor, size)
if x >= self.width and y >= self.height:
    return
aspect = self.width / self.height
if x / y >= aspect:
    x = round_aspect(y * aspect, key=lambda n: abs(aspect - n / y))
else:
    y = round_aspect(x / aspect,
                     key=lambda n: 0 if n == 0 else abs(aspect - x / n))
size = (x, y)
```
-/
def thumbnail_size (size : Nat × Nat) (w h : Nat) : Nat × Nat :=
  if size.1 ≥ w ∧ size.2 ≥ h then (w, h)
  else
    if (size.1 : ℚ) / (size.2 : ℚ) ≥ (w : ℚ) / (h : ℚ) then
      (round_aspect ((size.2 : ℚ) * ((w : ℚ) / (h : ℚ)))
         (fun n => |(w : ℚ) / (h : ℚ) - n / (size.2 : ℚ)|), size.2)
    else
      (size.1, round_aspect ((size.1 : ℚ) / ((w : ℚ) / (h : ℚ)))
         (fun n => if n = 0 then 0 else |(w : ℚ) / (h : ℚ) - (size.1 : ℚ) / n|))

/-- `image.thumbnail(size)` on a whole image: resizes in place, mode kept. -/
def thumbnail_image (img : PILImage) (size : Nat × Nat) : PILImage :=
  { img with
    width := (thumbnail_size size img.width img.height).1
    height := (thumbnail_size size img.width img.height).2 }

/-- Modes PIL's JPEG encoder accepts directly (its `RAWMODE` table). -/
def jpegRawModes : List PILMode := [.one, .L, .RGB, .RGBX, .CMYK, .YCbCr]

/-- Model of the byte stream PIL's JPEG encoder emits: the SOI marker
`FF D8` followed by data depending on the image and quality.  Only the
shape of the stream (nonempty, starts with the JPEG magic) is relied on. -/
def jpeg_encode (img : PILImage) (quality : Nat) : List Nat :=
  255 :: 216 :: [img.width / 256, img.width % 256,
                 img.height / 256, img.height % 256, quality]

/-- Model of `image.save(buffered, format="JPEG", quality=q)`: raises
`OSError("cannot write mode X as JPEG")` for modes outside `RAWMODE`,
otherwise fills the buffer with the encoded bytes. -/
def image_save_jpeg (img : PILImage) (quality : Nat) : Except String (List Nat) :=
  if img.mode ∈ jpegRawModes then .ok (jpeg_encode img quality)
  else .error ("cannot write mode " ++ img.mode.name ++ " as JPEG")

/-- Model of re-decoding the JPEG bytes `process_image` produced: JPEG
decoding yields an image with the same pixel dimensions; the decoded mode
is `CMYK` for CMYK streams, `L` for single-channel streams, `RGB`
otherwise. -/
def jpeg_redecode (img : PILImage) : PILImage :=
  { img with
    mode := match img.mode with
      | .CMYK => .CMYK
      | .one => .L
      | .L => .L
      | _ => .RGB }

/-- The standard base64 alphabet. -/
def base64Alphabet : List Char :=
  "ABCDEFGHIJKLMNOPQRSTUVWXYZabcdefghijklmnopqrstuvwxyz0123456789+/".toList

/-- The base64 character of a 6-bit value. -/
def b64char (n : Nat) : Char := base64Alphabet.getD n 'A'

/-- Model of `base64.b64encode(..).decode('utf-8')` on a byte list
(RFC 4648 with padding). -/
def base64Encode : List Nat → String
  | [] => ""
  | [b1] =>
      String.mk [b64char (b1 / 4), b64char (b1 % 4 * 16), '=', '=']
  | [b1, b2] =>
      String.mk [b64char (b1 / 4), b64char (b1 % 4 * 16 + b2 / 16),
                 b64char (b2 % 16 * 4), '=']
  | b1 :: b2 :: b3 :: rest =>
      String.mk [b64char (b1 / 4), b64char (b1 % 4 * 16 + b2 / 16),
                 b64char (b2 % 16 * 4 + b3 / 64), b64char (b3 % 64)]
        ++ base64Encode rest

/-- The `try` block of `process_image`: open, thumbnail to the maximum
dimensions `(800, 800)`, save as JPEG at quality 70, base64-encode. -/
def process_image_body (image_file : ImageFile) : Except String String :=
  (image_open image_file).bind fun image =>
    (image_save_jpeg (thumbnail_image image (800, 800)) 70).bind fun image_bytes =>
      .ok (base64Encode image_bytes)

/-- Embedding of `process_image` (src/app.py lines 51-82).  The result
`.ok payload` is the base64 string returned; `.error e` is the
`Exception(f"Error processing image: ...")` the `except` block re-raises
past the function's boundary. -/
def process_image (image_file : ImageFile) : Except String String :=
  match process_image_body image_file with
  | .ok s => .ok s
  | .error e => .error ("Error processing image: " ++ e)

/-- A content part of the `content` list of a chat message. -/
inductive ContentPart where
  | text (s : String)
  | image_url (url : String)
  deriving DecidableEq, Repr

/-- The `content` field of a chat message: a plain string (defect request)
or a list of typed parts (image request). -/
inductive MessageContent where
  | str (s : String)
  | parts (l : List ContentPart)
  deriving DecidableEq, Repr

/-- One message of a chat completion request. -/
structure ChatMessage where
  role : String
  content : MessageContent
  deriving DecidableEq, Repr

/-- The outbound request passed to `client.chat.completions.create`. -/
structure ChatRequest where
  model : String
  messages : List ChatMessage
  max_tokens : Nat
  deriving DecidableEq, Repr

/-- The inference response: the `message.content` of each choice. -/
structure ChatResponse where
  choices : List String
  deriving DecidableEq, Repr

/-- A client behaviour: `client.chat.completions.create` either returns a
response or raises a transport, authentication or service exception whose
string rendering is the `.error` payload. -/
abbrev Client := ChatRequest → Except String ChatResponse

/-- The constant `IMAGE_ANALYSIS_PROMPT` (src/app.py lines 37-40). -/
def IMAGE_ANALYSIS_PROMPT : String :=
  "Please analyze the given image along with any provided text context (if any) and provide an analysis of any deficiencies or conditions, safety concerns, functionality issues, etc."

/-- The constant `DEFECT_ANALYSIS_PROMPT` (src/app.py lines 42-45). -/
def DEFECT_ANALYSIS_PROMPT : String :=
  "Please analyze the given deficiency comment and provide a more detailed breakdown of the comment to allow for better understanding."

/-- The chat request `analyze_image` sends (src/app.py lines 102-119): one
user message whose content is a text part `f"{prompt}\n\nContext: {context}"`
followed by an `image_url` part with a JPEG data URI, capped at 1000
tokens. -/
def analyze_image_request (base64_image context prompt : String) : ChatRequest :=
  { model := "gpt-4o-mini-2024-07-18"
    messages := [{ role := "user"
                   content := .parts
                     [.text (prompt ++ "\n\nContext: " ++ context),
                      .image_url ("data:image/jpeg;base64," ++ base64_image)] }]
    max_tokens := 1000 }

/-- The chat request `analyze_defect` sends (src/app.py lines 139-148): one
user message whose content is the plain string
`f"{prompt}\n\nDefect Comment: {defect_text}"`, capped at 1000 tokens. -/
def analyze_defect_request (defect_text prompt : String) : ChatRequest :=
  { model := "gpt-4o-mini-2024-07-18"
    messages := [{ role := "user"
                   content := .str (prompt ++ "\n\nDefect Comment: " ++ defect_text) }]
    max_tokens := 1000 }

/-- The `try` block of `analyze_image`: process the image, issue the
request, take `response.choices[0].message.content` (an empty choice list
raises `IndexError`). -/
def analyze_image_body (image_file : ImageFile) (context prompt : String)
    (client : Client) : Except String String :=
  (process_image image_file).bind fun base64_image =>
    (client (analyze_image_request base64_image context prompt)).bind fun response =>
      match response.choices with
      | [] => .error "list index out of range"
      | c :: _ => .ok c

/-- Embedding of `analyze_image` (src/app.py lines 84-124): any exception
from the `try` block is caught and turned into the returned string
`f"Error: {e}"`; `.error` in the result would be an exception escaping the
function, which never happens. -/
def analyze_image (image_file : ImageFile) (context prompt : String)
    (client : Client) : Except String String :=
  match analyze_image_body image_file context prompt client with
  | .ok s => .ok s
  | .error e => .ok ("Error: " ++ e)

/-- The `try` block of `analyze_defect`: issue the request and take
`response.choices[0].message.content`. -/
def analyze_defect_body (defect_text prompt : String) (client : Client) :
    Except String String :=
  (client (analyze_defect_request defect_text prompt)).bind fun response =>
    match response.choices with
    | [] => .error "list index out of range"
    | c :: _ => .ok c

/-- Embedding of `analyze_defect` (src/app.py lines 126-153): any exception
from the `try` block is caught and turned into the returned string
`f"Error: {e}"`. -/
def analyze_defect (defect_text prompt : String) (client : Client) :
    Except String String :=
  match analyze_defect_body defect_text prompt client with
  | .ok s => .ok s
  | .error e => .ok ("Error: " ++ e)

/-- A user-visible event of one Streamlit script run, or an outbound
inference call. -/
inductive AppEvent where
  | errorShown (msg : String)
  | warningShown (msg : String)
  | inferenceCall (req : ChatRequest)
  | analysisShown (text : String)
  deriving DecidableEq, Repr

/-- Whether an event is an outbound inference call. -/
def AppEvent.is_call : AppEvent → Bool
  | .inferenceCall _ => true
  | _ => false

/-- The client configuration `OpenAI(api_key=..., base_url=...)` builds. -/
structure OpenAIClientConfig where
  api_key : String
  base_url : String
  deriving DecidableEq, Repr

/-- Embedding of `init_openai_client` (src/app.py lines 18-34): reading
`st.secrets["OPENAI_API_KEY"]` raises when the key is absent; the `except`
block shows an error and returns `None`.  Returns the events emitted and
the optional client configuration. -/
def init_openai_client (secrets : Option String) :
    List AppEvent × Option OpenAIClientConfig :=
  match secrets with
  | some api_key =>
      ([], some { api_key := api_key, base_url := "https://api.openai.com/v1" })
  | none =>
      ([.errorShown "Error initializing OpenAI client. Please check your API key configuration."],
       none)

/-- The inference requests `analyze_image` actually issues: none when
`process_image` raises first, otherwise exactly the one built request. -/
def analyze_image_calls (image_file : ImageFile) (context prompt : String) :
    List ChatRequest :=
  match process_image image_file with
  | .error _ => []
  | .ok base64_image => [analyze_image_request base64_image context prompt]

/-- The inference requests `analyze_defect` issues: exactly the one built
request. -/
def analyze_defect_calls (defect_text prompt : String) : List ChatRequest :=
  [analyze_defect_request defect_text prompt]

/-- The widget state of one script run: the uploaded file, the two text
areas and which of the two analyze buttons was pressed. -/
structure UIState where
  uploaded_file : Option ImageFile
  context : String
  defect_text : String
  analyze_image_clicked : Bool
  analyze_defect_clicked : Bool

/-- Display of an analysis result string `r`: `if r:` shows it, an empty
(falsy) string shows the given failure banner.  The `.error` branch is
unreachable: the embedded analyze functions always return a value. -/
def result_events (r : Except String String) (failBanner : String) : List AppEvent :=
  match r with
  | .ok s => if s ≠ "" then [.analysisShown s] else [.errorShown failBanner]
  | .error _ => []

/-- Events of the Image Analysis tab (src/app.py lines 181-223): context
over 500 characters is warned about and truncated, and the button press
calls `analyze_image` when a file is uploaded.  The display-only block that
previews the uploaded image (and its 5MB banner) is elided: it does not
affect the analysis flow. -/
def tab1_events (client : Client) (ui : UIState) : List AppEvent :=
  let warn : List AppEvent :=
    if ui.context.length > 500 then
      [.warningShown "Additional context should be under 500 characters."]
    else []
  let context := if ui.context.length > 500 then ui.context.take 500 else ui.context
  warn ++
    (if ui.analyze_image_clicked then
      match ui.uploaded_file with
      | none => [.warningShown "Please upload an image to analyze."]
      | some f =>
          (analyze_image_calls f context IMAGE_ANALYSIS_PROMPT).map .inferenceCall ++
            result_events (analyze_image f context IMAGE_ANALYSIS_PROMPT client)
              "Failed to retrieve analysis."
    else [])

/-- Events of the Defect Information tab (src/app.py lines 228-253): defect
text over 1000 characters is warned about and truncated; blank (stripped)
text blocks the call, otherwise the button press calls `analyze_defect`. -/
def tab2_events (client : Client) (ui : UIState) : List AppEvent :=
  let warn : List AppEvent :=
    if ui.defect_text.length > 1000 then
      [.warningShown "Defect comment should be under 1000 characters."]
    else []
  let defect_text :=
    if ui.defect_text.length > 1000 then ui.defect_text.take 1000 else ui.defect_text
  warn ++
    (if ui.analyze_defect_clicked then
      if defect_text.trim = "" then
        [.warningShown "Please enter a defect description to analyze."]
      else
        (analyze_defect_calls defect_text DEFECT_ANALYSIS_PROMPT).map .inferenceCall ++
          result_events (analyze_defect defect_text DEFECT_ANALYSIS_PROMPT client)
            "Failed to retrieve detailed analysis."
    else [])

/-- Embedding of `main` (src/app.py lines 159-253) as the events of one
script run: client initialization, then — only when a client exists — the
two tabs.  `client_of` gives the request behaviour of a constructed client;
page setup and the static info banner are elided. -/
def main_events (secrets : Option String)
    (client_of : OpenAIClientConfig → Client) (ui : UIState) : List AppEvent :=
  match init_openai_client secrets with
  | (init_ev, none) =>
      init_ev ++
        [.errorShown "Failed to initialize OpenAI client. Please check your configuration."]
  | (init_ev, some cfg) =>
      init_ev ++ tab1_events (client_of cfg) ui ++ tab2_events (client_of cfg) ui

/-- Upper bound for `round_aspect`: both the floor and the ceiling of a
number at most `m` are at most `m`, and so is their clamp to at least 1. -/
theorem round_aspect_le (n : ℚ) (k : ℚ → ℚ) (m : Nat) (h1 : 1 ≤ m)
    (hn : n ≤ (m : ℚ)) : round_aspect n k ≤ m := by
  unfold round_aspect
  have hceil : ⌈n⌉ ≤ (m : ℤ) := Int.ceil_le.mpr (by exact_mod_cast hn)
  have hc : (Int.ceil n).toNat ≤ m := by
    have := Int.toNat_le_toNat hceil
    simpa using this
  have hf : (Int.floor n).toNat ≤ m :=
    le_trans (Int.toNat_le_toNat (Int.floor_le_ceil n)) hc
  split <;> omega

/-- `round_aspect` stays within distance 1 of its positive input: it picks
the floor or the ceiling, and the clamp to 1 only fires for inputs below
1, which are still within distance 1 of the result 1. -/
theorem round_aspect_close (n : ℚ) (k : ℚ → ℚ) (hn : 0 < n) :
    |(round_aspect n k : ℚ) - n| ≤ 1 := by
  unfold round_aspect
  rcases le_or_lt 1 n with h1 | h1
  · have hf1 : (1 : ℤ) ≤ ⌊n⌋ := by
      rw [Int.le_floor]; exact_mod_cast h1
    have hc1 : (1 : ℤ) ≤ ⌈n⌉ := le_trans hf1 (Int.floor_le_ceil n)
    have hfq : ((Int.toNat ⌊n⌋ : ℚ)) = (⌊n⌋ : ℚ) := by
      exact_mod_cast congrArg (Int.cast : ℤ → ℚ) (Int.toNat_of_nonneg (by omega))
    have hcq : ((Int.toNat ⌈n⌉ : ℚ)) = (⌈n⌉ : ℚ) := by
      exact_mod_cast congrArg (Int.cast : ℤ → ℚ) (Int.toNat_of_nonneg (by omega))
    have hfb : |(⌊n⌋ : ℚ) - n| ≤ 1 := by
      rw [abs_le]
      constructor
      · have := Int.sub_one_lt_floor n
        push_cast at this ⊢
        linarith
      · have := Int.floor_le n
        linarith
    have hcb : |(⌈n⌉ : ℚ) - n| ≤ 1 := by
      rw [abs_le]
      constructor
      · have := Int.le_ceil n
        linarith
      · have := Int.ceil_lt_add_one n
        linarith
    have hmf : max (Int.toNat ⌊n⌋) 1 = Int.toNat ⌊n⌋ := by omega
    have hmc : max (Int.toNat ⌈n⌉) 1 = Int.toNat ⌈n⌉ := by omega
    split
    · rw [hmf, hfq]; exact hfb
    · rw [hmc, hcq]; exact hcb
  · have hf0 : ⌊n⌋ = 0 := by
      rw [Int.floor_eq_zero_iff]
      exact ⟨le_of_lt hn, h1⟩
    have hc0 : ⌈n⌉ = 1 := by
      have := Int.ceil_le.mpr (le_of_lt h1 : n ≤ ((1 : ℤ) : ℚ))
      have h2 := Int.lt_ceil.mpr (show ((0 : ℤ) : ℚ) < n by exact_mod_cast hn)
      omega
    rw [hf0, hc0]
    have hb : |(1 : ℚ) - n| ≤ 1 := by
      rw [abs_le]; constructor <;> linarith
    split
    · simpa using hb
    · simpa using hb

/-- Characterization of `thumbnail_size` at the app's maximum size
`(800, 800)`: the guard `x / y >= aspect` becomes `aspect ≤ 1`. -/
theorem thumbnail_size_eq (w h : Nat) :
    thumbnail_size (800, 800) w h =
      if w ≤ 800 ∧ h ≤ 800 then (w, h)
      else if (w : ℚ) / (h : ℚ) ≤ 1 then
        (round_aspect ((800 : ℚ) * ((w : ℚ) / (h : ℚ)))
           (fun n => |(w : ℚ) / (h : ℚ) - n / (800 : ℚ)|), 800)
      else
        (800, round_aspect ((800 : ℚ) / ((w : ℚ) / (h : ℚ)))
           (fun n => if n = 0 then 0 else |(w : ℚ) / (h : ℚ) - (800 : ℚ) / n|)) := by
  unfold thumbnail_size
  norm_num [ge_iff_le]

/-- An image already within the 800 × 800 bounds is left at its original
size: the first guard of `thumbnail` returns without resizing. -/
theorem thumbnail_size_within (w h : Nat) (hw : w ≤ 800) (hh : h ≤ 800) :
    thumbnail_size (800, 800) w h = (w, h) := by
  rw [thumbnail_size_eq, if_pos ⟨hw, hh⟩]

/-- Both output dimensions of `thumbnail` at size `(800, 800)` are at most
800, for every input size. -/
theorem thumbnail_size_le_800 (w h : Nat) :
    (thumbnail_size (800, 800) w h).1 ≤ 800 ∧ (thumbnail_size (800, 800) w h).2 ≤ 800 := by
  rw [thumbnail_size_eq]
  split
  · next hin => exact ⟨hin.1, hin.2⟩
  · split
    · next hq =>
      refine ⟨?_, le_refl 800⟩
      show round_aspect ((800 : ℚ) * ((w : ℚ) / (h : ℚ)))
          (fun n => |(w : ℚ) / (h : ℚ) - n / (800 : ℚ)|) ≤ 800
      apply round_aspect_le _ _ 800 (by norm_num)
      push_cast
      calc (800 : ℚ) * ((w : ℚ) / h) ≤ 800 * 1 :=
            mul_le_mul_of_nonneg_left hq (by norm_num)
        _ = 800 := by norm_num
    · next hq =>
      refine ⟨le_refl 800, ?_⟩
      show round_aspect ((800 : ℚ) / ((w : ℚ) / (h : ℚ)))
          (fun n => if n = 0 then 0 else |(w : ℚ) / (h : ℚ) - (800 : ℚ) / n|) ≤ 800
      apply round_aspect_le _ _ 800 (by norm_num)
      push_cast
      exact div_le_self (by norm_num) (le_of_lt (not_le.mp hq))

/-- Aspect-ratio preservation up to rounding: the cross product of the
output dimensions with the input dimensions differs from exact aspect
equality by at most the larger input dimension (that is, the rounded
dimension is within one pixel of the exact aspect-preserving value). -/
theorem thumbnail_size_aspect (w h : Nat) (hw : 1 ≤ w) (hh : 1 ≤ h) :
    |((thumbnail_size (800, 800) w h).1 : ℚ) * (h : ℚ) -
      ((thumbnail_size (800, 800) w h).2 : ℚ) * (w : ℚ)| ≤ ((max w h : Nat) : ℚ) := by
  have hwq : (0 : ℚ) < w := by exact_mod_cast hw
  have hhq : (0 : ℚ) < h := by exact_mod_cast hh
  rw [thumbnail_size_eq]
  split
  · next hin =>
    show |(w : ℚ) * (h : ℚ) - (h : ℚ) * (w : ℚ)| ≤ ((max w h : Nat) : ℚ)
    have hz : (w : ℚ) * h - (h : ℚ) * w = 0 := by ring
    rw [hz, abs_zero]
    positivity
  · split
    · next hq =>
      show |(round_aspect ((800 : ℚ) * ((w : ℚ) / (h : ℚ)))
              (fun n => |(w : ℚ) / (h : ℚ) - n / (800 : ℚ)|) : ℚ) * (h : ℚ) -
            ((800 : Nat) : ℚ) * (w : ℚ)| ≤ ((max w h : Nat) : ℚ)
      have hn : (0 : ℚ) < (800 : ℚ) * ((w : ℚ) / (h : ℚ)) :=
        mul_pos (by norm_num) (div_pos hwq hhq)
      have hclose := round_aspect_close ((800 : ℚ) * ((w : ℚ) / (h : ℚ)))
        (fun n => |(w : ℚ) / (h : ℚ) - n / (800 : ℚ)|) hn
      set r : Nat := round_aspect ((800 : ℚ) * ((w : ℚ) / (h : ℚ)))
        (fun n => |(w : ℚ) / (h : ℚ) - n / (800 : ℚ)|) with hr
      push_cast
      have key : (r : ℚ) * h - 800 * w = ((r : ℚ) - 800 * ((w : ℚ) / h)) * h := by
        field_simp
      rw [key, abs_mul, abs_of_pos hhq]
      calc |(r : ℚ) - 800 * ((w : ℚ) / h)| * h ≤ 1 * h :=
            mul_le_mul_of_nonneg_right hclose hhq.le
        _ = (h : ℚ) := one_mul _
        _ ≤ max (w : ℚ) (h : ℚ) := le_max_right _ _
    · next hq =>
      show |((800 : Nat) : ℚ) * (h : ℚ) -
            (round_aspect ((800 : ℚ) / ((w : ℚ) / (h : ℚ)))
              (fun n => if n = 0 then 0 else |(w : ℚ) / (h : ℚ) - (800 : ℚ) / n|) : ℚ) *
              (w : ℚ)| ≤ ((max w h : Nat) : ℚ)
      have haspq : (0 : ℚ) < (w : ℚ) / (h : ℚ) := div_pos hwq hhq
      have hn : (0 : ℚ) < (800 : ℚ) / ((w : ℚ) / (h : ℚ)) := div_pos (by norm_num) haspq
      have hclose := round_aspect_close ((800 : ℚ) / ((w : ℚ) / (h : ℚ)))
        (fun n => if n = 0 then 0 else |(w : ℚ) / (h : ℚ) - (800 : ℚ) / n|) hn
      set r : Nat := round_aspect ((800 : ℚ) / ((w : ℚ) / (h : ℚ)))
        (fun n => if n = 0 then 0 else |(w : ℚ) / (h : ℚ) - (800 : ℚ) / n|) with hr
      push_cast
      have key : (800 : ℚ) * h - (r : ℚ) * w = -(((r : ℚ) - 800 / ((w : ℚ) / h)) * w) := by
        field_simp
      rw [key, abs_neg, abs_mul, abs_of_pos hwq]
      calc |(r : ℚ) - 800 / ((w : ℚ) / h)| * w ≤ 1 * w :=
            mul_le_mul_of_nonneg_right hclose hwq.le
        _ = (w : ℚ) := one_mul _
        _ ≤ max (w : ℚ) (h : ℚ) := le_max_left _ _

/-- The spec scenario input: a 1200 × 900 image scales to 800 × 600. -/
theorem thumbnail_size_1200_900 : thumbnail_size (800, 800) 1200 900 = (800, 600) := by
  rw [thumbnail_size_eq]
  norm_num [round_aspect]
  rfl

/-- `image.thumbnail((800, 800))` leaves an image already within bounds
untouched. -/
theorem thumbnail_image_within (img : PILImage) (hw : img.width ≤ 800)
    (hh : img.height ≤ 800) : thumbnail_image img (800, 800) = img := by
  unfold thumbnail_image
  rw [thumbnail_size_within img.width img.height hw hh]

/-- Concrete run of `process_image` on the spec's 1200 × 900 scenario. -/
theorem process_image_1200_900 :
    process_image (.valid ⟨1200, 900, .RGB⟩) = .ok "/9gDIAJYRg==" := by
  have ht : thumbnail_image ⟨1200, 900, .RGB⟩ (800, 800) = ⟨800, 600, .RGB⟩ := by
    unfold thumbnail_image
    rw [thumbnail_size_1200_900]
  simp only [process_image, process_image_body, image_open, Except.bind, ht]
  rfl

/-- C1 counterexample: on a malformed upload, `process_image` does not
return a failure value — it raises: the embedded result is the `.error`
(escaping exception) branch, with the re-raised message. -/
theorem process_image_malformed_raises :
    process_image (.malformed "cannot identify image file") =
      .error "Error processing image: cannot identify image file" := rfl

/-- C1 (amended): for every malformed image input, `process_image` lets an
exception escape its boundary whose message is "Error processing image: "
followed by the underlying decode failure message, rather than returning a
failure value; the exception is converted to a returned error string only
by its caller `analyze_image`. -/
theorem process_image_malformed_exception (msg context prompt : String)
    (client : Client) :
    process_image (.malformed msg) = .error ("Error processing image: " ++ msg) ∧
    analyze_image (.malformed msg) context prompt client =
      .ok ("Error: " ++ ("Error processing image: " ++ msg)) :=
  ⟨rfl, rfl⟩

/-- C2: for every valid raster image, normalization keeps both dimensions
at most 800, preserves the aspect ratio up to rounding (the cross product
of output with input dimensions is within the larger input dimension of
exact equality, i.e. the rounded dimension is within one pixel of exact),
never upscales an image already within bounds, and on the 1200 × 900
scenario produces 800 × 600 with a non-empty base64 payload. -/
theorem normalize_bounded_no_upscale (w h : Nat) (hw : 1 ≤ w) (hh : 1 ≤ h) :
    (thumbnail_size (800, 800) w h).1 ≤ 800 ∧
    (thumbnail_size (800, 800) w h).2 ≤ 800 ∧
    |((thumbnail_size (800, 800) w h).1 : ℚ) * (h : ℚ) -
        ((thumbnail_size (800, 800) w h).2 : ℚ) * (w : ℚ)| ≤ ((max w h : Nat) : ℚ) ∧
    (w ≤ 800 → h ≤ 800 → thumbnail_size (800, 800) w h = (w, h)) ∧
    thumbnail_size (800, 800) 1200 900 = (800, 600) ∧
    process_image (.valid ⟨1200, 900, .RGB⟩) = .ok "/9gDIAJYRg==" ∧
    "/9gDIAJYRg==" ≠ "" :=
  ⟨(thumbnail_size_le_800 w h).1, (thumbnail_size_le_800 w h).2,
   thumbnail_size_aspect w h hw hh,
   fun h1 h2 => thumbnail_size_within w h h1 h2,
   thumbnail_size_1200_900, process_image_1200_900, by decide⟩

/-- Witness for C2 at the concrete size 640 × 480. -/
theorem normalize_bounded_no_upscale_witness :
    (thumbnail_size (800, 800) 640 480).1 ≤ 800 ∧
    (thumbnail_size (800, 800) 640 480).2 ≤ 800 ∧
    |((thumbnail_size (800, 800) 640 480).1 : ℚ) * ((480 : Nat) : ℚ) -
        ((thumbnail_size (800, 800) 640 480).2 : ℚ) * ((640 : Nat) : ℚ)| ≤
      ((max 640 480 : Nat) : ℚ) ∧
    (640 ≤ 800 → 480 ≤ 800 → thumbnail_size (800, 800) 640 480 = (640, 480)) ∧
    thumbnail_size (800, 800) 1200 900 = (800, 600) ∧
    process_image (.valid ⟨1200, 900, .RGB⟩) = .ok "/9gDIAJYRg==" ∧
    "/9gDIAJYRg==" ≠ "" :=
  normalize_bounded_no_upscale 640 480 (by norm_num) (by norm_num)

/-- C3: for every request and every client behaviour, `analyze_image` and
`analyze_defect` always return a result value (never let an exception
escape), and when the inference call raises with message `e` the returned
value is the error string "Error: " followed by `e`. -/
theorem send_returns_result (image_file : ImageFile)
    (context prompt defect_text : String) (client : Client) :
    (∃ r, analyze_image image_file context prompt client = .ok r) ∧
    (∃ r, analyze_defect defect_text prompt client = .ok r) ∧
    (∀ b64 e, process_image image_file = .ok b64 →
        client (analyze_image_request b64 context prompt) = .error e →
        analyze_image image_file context prompt client = .ok ("Error: " ++ e)) ∧
    (∀ e, client (analyze_defect_request defect_text prompt) = .error e →
        analyze_defect defect_text prompt client = .ok ("Error: " ++ e)) := by
  refine ⟨?_, ?_, ?_, ?_⟩
  · cases h : analyze_image_body image_file context prompt client with
    | ok s =>
        refine ⟨s, ?_⟩
        unfold analyze_image
        rw [h]
    | error e =>
        refine ⟨"Error: " ++ e, ?_⟩
        unfold analyze_image
        rw [h]
  · cases h : analyze_defect_body defect_text prompt client with
    | ok s =>
        refine ⟨s, ?_⟩
        unfold analyze_defect
        rw [h]
    | error e =>
        refine ⟨"Error: " ++ e, ?_⟩
        unfold analyze_defect
        rw [h]
  · intro b64 e hp hc
    unfold analyze_image analyze_image_body
    rw [hp]
    simp only [Except.bind]
    rw [hc]
  · intro e hc
    unfold analyze_defect analyze_defect_body
    rw [hc]
    simp only [Except.bind]

/-- Witness for C3: a client that always raises an authentication error
turns into a returned error-string result for both operations. -/
theorem send_returns_result_witness :
    analyze_image (.valid ⟨640, 480, .RGB⟩) "attic" "analyze"
        (fun _ => .error "Incorrect API key provided") =
      .ok ("Error: " ++ "Incorrect API key provided") ∧
    analyze_defect "cracked wall" "analyze"
        (fun _ => .error "Incorrect API key provided") =
      .ok ("Error: " ++ "Incorrect API key provided") :=
  ⟨(send_returns_result (.valid ⟨640, 480, .RGB⟩) "attic" "analyze" "cracked wall"
      (fun _ => .error "Incorrect API key provided")).2.2.1
        "/9gCgAHgRg==" "Incorrect API key provided" rfl rfl,
   (send_returns_result (.valid ⟨640, 480, .RGB⟩) "attic" "analyze" "cracked wall"
      (fun _ => .error "Incorrect API key provided")).2.2.2
        "Incorrect API key provided" rfl⟩

/-- C4: for every prompt, context and payload, the image request is a
single user message whose content is exactly one text block — the literal
prompt followed by the separator and the literal context, in that order —
followed by an image reference of the exact form
`data:image/jpeg;base64,` plus the payload, and nothing else. -/
theorem buildImageRequest_prompt_context_image (base64_image context prompt : String) :
    (analyze_image_request base64_image context prompt).messages =
      [{ role := "user"
         content := .parts
           [.text (prompt ++ "\n\nContext: " ++ context),
            .image_url ("data:image/jpeg;base64," ++ base64_image)] }] := rfl

/-- C5: for every defect text and prompt, the defect request's message text
is the prompt, the separator "\n\nDefect Comment: ", then the defect text;
in particular the spec scenario for "Cracked foundation wall near
northeast corner" with `DEFECT_ANALYSIS_PROMPT`. -/
theorem buildDefectRequest_text (defect_text prompt : String) :
    (analyze_defect_request defect_text prompt).messages =
      [{ role := "user"
         content := .str (prompt ++ "\n\nDefect Comment: " ++ defect_text) }] ∧
    (analyze_defect_request "Cracked foundation wall near northeast corner"
        DEFECT_ANALYSIS_PROMPT).messages =
      [{ role := "user"
         content := .str (DEFECT_ANALYSIS_PROMPT ++
           "\n\nDefect Comment: Cracked foundation wall near northeast corner") }] :=
  ⟨rfl, rfl⟩

/-- C6: both outbound requests carry `max_tokens = 1000`, for every
input. -/
theorem requests_max_tokens_1000 (base64_image context prompt defect_text : String) :
    (analyze_image_request base64_image context prompt).max_tokens = 1000 ∧
    (analyze_defect_request defect_text prompt).max_tokens = 1000 :=
  ⟨rfl, rfl⟩

/-- C7: normalizing a second time — thumbnailing the re-decoded JPEG output
of a first `process_image` pass — changes neither width nor height, for
every starting image. -/
theorem second_normalize_preserves_dims (img : PILImage) :
    (thumbnail_image (jpeg_redecode (thumbnail_image img (800, 800))) (800, 800)).width
        = (jpeg_redecode (thumbnail_image img (800, 800))).width ∧
    (thumbnail_image (jpeg_redecode (thumbnail_image img (800, 800))) (800, 800)).height
        = (jpeg_redecode (thumbnail_image img (800, 800))).height := by
  have hb := thumbnail_size_le_800 img.width img.height
  have h1 : (jpeg_redecode (thumbnail_image img (800, 800))).width ≤ 800 := hb.1
  have h2 : (jpeg_redecode (thumbnail_image img (800, 800))).height ≤ 800 := hb.2
  rw [thumbnail_image_within _ h1 h2]
  exact ⟨rfl, rfl⟩

/-- C8: the builders forward arbitrarily long context and defect text
verbatim — the full given text appears unmodified (as a suffix of the
message text) for every length, with no re-validation, truncation or
rejection in the builder itself. -/
theorem builders_forward_text_verbatim (base64_image context defect_text prompt : String) :
    (∃ pre, (analyze_image_request base64_image context prompt).messages =
      [{ role := "user"
         content := .parts
           [.text (pre ++ context),
            .image_url ("data:image/jpeg;base64," ++ base64_image)] }]) ∧
    (∃ pre, (analyze_defect_request defect_text prompt).messages =
      [{ role := "user", content := .str (pre ++ defect_text) }]) :=
  ⟨⟨prompt ++ "\n\nContext: ", rfl⟩, ⟨prompt ++ "\n\nDefect Comment: ", rfl⟩⟩

/-- C9: with no API credential in the secrets store, client initialization
fails, the failure is reported once at startup, and the script run issues
no inference call at all — for every client behaviour and every widget
state. -/
theorem no_inference_without_credential (client_of : OpenAIClientConfig → Client)
    (ui : UIState) :
    main_events none client_of ui =
      [.errorShown "Error initializing OpenAI client. Please check your API key configuration.",
       .errorShown "Failed to initialize OpenAI client. Please check your configuration."] ∧
    (main_events none client_of ui).all (fun e => ! e.is_call) = true :=
  ⟨rfl, rfl⟩

/-- C10: every decoded image whose mode is RGBA (e.g. an RGBA PNG) makes
`process_image` fail — the unconditional JPEG re-encode cannot write that
mode — so an error is raised instead of a payload being produced, whatever
the dimensions. -/
theorem process_image_rgba_fails (w h : Nat) :
    process_image (.valid ⟨w, h, .RGBA⟩) =
      .error "Error processing image: cannot write mode RGBA as JPEG" := rfl
